import Mathlib

/-!
Verification development for the EVM log pipeline.

Shallow embedding of the pipeline's core components, translated from the
repository's Python sources:

* `shared/abi_decoder.py` — the ABI event decoder (`decode_logs` and its
  per-log loop body, here `decode_one`, together with
  `_prepare_log_for_web3`).
* `shared/etherscan_client.py` — the paginated `EtherscanClient.get_logs`
  fetch loop.
* `shared/delta_lake_utils.py` — `write_delta_table` over a logical table
  modelled as a list of rows, with the `deltalake` library's documented
  write-mode semantics (`append` adds rows; `overwrite` without a partition
  predicate replaces the entire table).
* `sync_raw_data/handler.py` and `decode_data/handler.py` — the two Lambda
  handlers, with all external effects (Etherscan fetch, storage writes,
  registry update) passed in as explicit `Except`-valued oracles, and the
  set of side effects actually attempted recorded in an effects record.
-/

namespace EvmPipeline

/- ### Hex string helpers (models of Python `bytes.hex`, `bytes.fromhex`, `int(s, 16)`) -/

/-- One lowercase hex digit, as produced by Python's `bytes.hex()`. -/
def hexDigitChar (n : Nat) : Char :=
  if n < 10 then Char.ofNat (48 + n) else Char.ofNat (87 + n)

/-- Two lowercase hex digits for one byte, as in Python's `bytes.hex()`. -/
def byteToHex (b : Nat) : String :=
  String.mk [hexDigitChar (b / 16 % 16), hexDigitChar (b % 16)]

/-- Model of Python `bytes.hex()`: lowercase hex, no 0x prefix. -/
def bytesToHex (bs : List Nat) : String :=
  String.join (bs.map byteToHex)

/-- Model of Python `str.startswith`, defined over the character list so that
concrete instances evaluate inside the kernel. -/
def str_startswith (s pre : String) : Bool :=
  pre.data.isPrefixOf s.data

/-- Model of Python string slicing `s[n:]`. -/
def str_drop (s : String) (n : Nat) : String :=
  String.mk (s.data.drop n)

/-- Model of Python `str.lower` on one ASCII character. -/
def py_lower_char (c : Char) : Char :=
  if 65 ≤ c.toNat ∧ c.toNat ≤ 90 then Char.ofNat (c.toNat + 32) else c

/-- Model of Python `str.lower` for ASCII strings. -/
def py_lower (s : String) : String :=
  String.mk (s.data.map py_lower_char)

/-- Is this character a hex digit (either case)? -/
def isHexChar (c : Char) : Bool :=
  (48 ≤ c.toNat && c.toNat ≤ 57) || (97 ≤ c.toNat && c.toNat ≤ 102) ||
    (65 ≤ c.toNat && c.toNat ≤ 70)

/-- Numeric value of a hex digit character. -/
def hexCharVal (c : Char) : Nat :=
  if c.toNat ≤ 57 then c.toNat - 48
  else if 97 ≤ c.toNat then c.toNat - 87
  else c.toNat - 55

/-- Model of Python `bytes.fromhex` on a character list: pairs of hex digits;
an odd-length or non-hex input raises `ValueError` (modelled as `.error`). -/
def bytesFromHexChars : List Char → Except String (List Nat)
  | [] => .ok []
  | [_] => .error "non-hexadecimal number found in fromhex() arg"
  | c1 :: c2 :: rest =>
    if isHexChar c1 && isHexChar c2 then
      (bytesFromHexChars rest).map (fun bs => (16 * hexCharVal c1 + hexCharVal c2) :: bs)
    else .error "non-hexadecimal number found in fromhex() arg"

/-- Model of Python `bytes.fromhex` on a string. -/
def bytesFromHex (s : String) : Except String (List Nat) :=
  bytesFromHexChars s.data

/-- Value of a list of hex digit characters (most significant first). -/
def hexCharsVal : List Char → Nat
  | [] => 0
  | c :: rest => hexCharVal c * 16 ^ rest.length + hexCharsVal rest

/-- Model of Python `int(s, 16)`: an optional `0x`/`0X` prefix followed by at
least one hex digit; anything else raises `ValueError` (modelled as `.error`).
Leading whitespace, signs and underscore separators, which `int` also accepts,
are not modelled — no caller in this repository produces them. -/
def parseHexInt (s : String) : Except String Nat :=
  let body := if str_startswith s "0x" || str_startswith s "0X" then str_drop s 2 else s
  if body.data ≠ [] && body.data.all isHexChar then
    .ok (hexCharsVal body.data)
  else .error ("invalid literal for int() with base 16: " ++ s)

/- ### Decoder data model (`shared/abi_decoder.py`) -/

/-- A topic as it can appear in a raw log: a hex string or a byte value
(Python `str` vs `bytes`, the two cases `decode_logs` branches on). -/
inductive HexTopic where
  | str (s : String)
  | bytes (b : List Nat)
deriving DecidableEq, Repr

/-- A field that may arrive as a hex string or already as a number, matching
the `isinstance(x, str)` branches in `_prepare_log_for_web3`. -/
inductive SNum where
  | str (s : String)
  | num (n : Nat)
deriving DecidableEq, Repr

/-- One raw log record, with the fields produced by
`reconstruct_log_for_decoding` in `decode_data/handler.py` (the exact key set
fed to `decode_logs`). -/
structure EvmLog where
  address : String
  blockNumber : SNum
  transactionHash : String
  transactionIndex : SNum
  logIndex : SNum
  data : String
  topics : List HexTopic
  chainid : Nat
  contract_address : String
  topic0 : Option String
deriving DecidableEq, Repr

/-- A log prepared for web3 processing, as built by `_prepare_log_for_web3`:
topics and data as bytes, numeric fields as integers. -/
structure PreparedLog where
  topics : List (List Nat)
  data : List Nat
  address : String
  blockNumber : Nat
  transactionHash : String
  transactionIndex : Nat
  logIndex : Nat
deriving DecidableEq, Repr

/-- One entry of the decoder's event lookup. `process_log` abstracts web3's
`event.process_log`, which may raise (modelled as `Except`); the decoded args
are the JSON-rendered name/value pairs produced by `_args_to_dict`. -/
structure EventObj where
  event_name : String
  process_log : PreparedLog → Except String (List (String × String))

/-- The event lookup built at the top of `decode_logs`: signature-hash string
to event object. In the source the keys come from
`w3.keccak(text=event.event_signature).hex()`, which is always a lowercase
`0x`-prefixed hex string; the keccak computation itself lives in the external
web3 library, so the map is taken as a parameter here. -/
def EventMap : Type := List (String × EventObj)

/-- One decoded log record: the input log's fields plus the decode outcome,
matching the dictionaries appended by `decode_logs`. -/
structure DecodedRecord where
  log : EvmLog
  event_name : Option String
  decoded_args : List (String × String)
  decode_status : String
  decode_error : Option String
deriving DecidableEq, Repr

/-- Signature normalization from `decode_logs`: a bytes topic is rendered with
`bytes.hex()` (lowercase), then a `0x` prefix is added when missing. Note the
source never lowercases a string topic. -/
def normalize_sig : HexTopic → String
  | .bytes b =>
    let h := bytesToHex b
    if str_startswith h "0x" then h else "0x" ++ h
  | .str s => if str_startswith s "0x" then s else "0x" ++ s

/-- Topic conversion inside `_prepare_log_for_web3`: strings are hex-decoded
(after stripping a `0x` prefix), bytes pass through. -/
def topicToBytes : HexTopic → Except String (List Nat)
  | .str s => if str_startswith s "0x" then bytesFromHex (str_drop s 2) else bytesFromHex s
  | .bytes b => .ok b

/-- Data conversion inside `_prepare_log_for_web3`. -/
def dataToBytes (data : String) : Except String (List Nat) :=
  if str_startswith data "0x" then
    if data.length > 2 then bytesFromHex (str_drop data 2) else .ok []
  else
    if data ≠ "" then bytesFromHex data else .ok []

/-- Numeric field conversion inside `_prepare_log_for_web3`:
`int(x, 16)` when the field is a string, identity otherwise. -/
def snumToNat : SNum → Except String Nat
  | .str s => parseHexInt s
  | .num n => .ok n

/-- Model of `_prepare_log_for_web3`. Any failing conversion raises in the
source; here the first failure propagates as `.error`. -/
def prepare_log_for_web3 (log : EvmLog) : Except String PreparedLog := do
  let ts ← log.topics.mapM topicToBytes
  let d ← dataToBytes log.data
  let bn ← snumToNat log.blockNumber
  let ti ← snumToNat log.transactionIndex
  let li ← snumToNat log.logIndex
  return { topics := ts, data := d, address := log.address,
           blockNumber := bn, transactionHash := log.transactionHash,
           transactionIndex := ti, logIndex := li }

/-- The body of the per-log loop in `decode_logs`, including the surrounding
try/except: every raised error is captured as `decode_status = "error"` with
the message in `decode_error`. -/
def decode_one (event_map : EventMap) (log : EvmLog) : DecodedRecord :=
  match log.topics with
  | [] =>
    { log := log, event_name := none, decoded_args := [],
      decode_status := "no_topics", decode_error := none }
  | t :: _ =>
    let sig := normalize_sig t
    match event_map.lookup sig with
    | none =>
      { log := log, event_name := none, decoded_args := [],
        decode_status := "unknown_event", decode_error := none }
    | some event =>
      match prepare_log_for_web3 log with
      | .error e =>
        { log := log, event_name := none, decoded_args := [],
          decode_status := "error", decode_error := some e }
      | .ok web3_log =>
        match event.process_log web3_log with
        | .error e =>
          { log := log, event_name := none, decoded_args := [],
            decode_status := "error", decode_error := some e }
        | .ok args =>
          { log := log, event_name := some event.event_name,
            decoded_args := args, decode_status := "success",
            decode_error := none }

/-- Model of `decode_logs`: one output record appended per input log. The
event lookup, built in the source from the ABI via web3's keccak, is passed in
directly (the claim set only concerns ABIs for which this lookup exists). -/
def decode_logs (logs : List EvmLog) (event_map : EventMap) : List DecodedRecord :=
  logs.map (decode_one event_map)

/- ### Etherscan client pagination (`shared/etherscan_client.py`, `get_logs`) -/

/-- One Etherscan `getLogs` response for a block window: a status string and
an optional result list (`None`, absent, or a non-list result all model as
`none`). -/
structure LogsResponse (α : Type) where
  status : String
  result : Option (List α)

/-- The logs contributed by one window of the `get_logs` loop: the response's
result list is appended only when `status == "1"` and the result is truthy (a
falsy empty list contributes nothing either way). -/
def window_logs {α : Type} (r : LogsResponse α) : List α :=
  if r.status = "1" then
    match r.result with
    | some logs => logs
    | none => []
  else []

/-- The sequence of `(fromBlock, toBlock)` request windows issued by the
`while current_from <= to_block` loop of `get_logs`, recursing on an explicit
fuel bound (each iteration advances `current_from` by at least one when
`batch_size > 0`, so `to_block + 1 - from_block` iterations always suffice).
The `0 < batch_size` guard is added because the source loop does not
terminate for `batch_size = 0`; every claim assumes a positive batch size. -/
def get_logs_windows_aux (to_block batch_size : Nat) : Nat → Nat → List (Nat × Nat)
  | 0, _ => []
  | fuel + 1, current_from =>
    if current_from ≤ to_block ∧ 0 < batch_size then
      let current_to := min (current_from + batch_size - 1) to_block
      (current_from, current_to) ::
        get_logs_windows_aux to_block batch_size fuel (current_to + 1)
    else []

/-- The request windows of one `get_logs` call. -/
def get_logs_windows (from_block to_block batch_size : Nat) : List (Nat × Nat) :=
  get_logs_windows_aux to_block batch_size (to_block + 1 - from_block) from_block

/-- Model of `EtherscanClient.get_logs`: the while loop accumulating
`all_logs`, with the per-window API response supplied by the oracle `resp`
(indexed by the window bounds). Same fuel scheme as `get_logs_windows_aux`. -/
def get_logs_aux {α : Type} (resp : Nat → Nat → LogsResponse α)
    (to_block batch_size : Nat) : Nat → Nat → List α
  | 0, _ => []
  | fuel + 1, current_from =>
    if current_from ≤ to_block ∧ 0 < batch_size then
      let current_to := min (current_from + batch_size - 1) to_block
      window_logs (resp current_from current_to) ++
        get_logs_aux resp to_block batch_size fuel (current_to + 1)
    else []

/-- Model of `EtherscanClient.get_logs` (default `batch_size = 10000` in the
source is passed explicitly here). -/
def get_logs {α : Type} (resp : Nat → Nat → LogsResponse α)
    (from_block to_block batch_size : Nat) : List α :=
  get_logs_aux resp to_block batch_size (to_block + 1 - from_block) from_block

/- ### Delta lake writes (`shared/delta_lake_utils.py`) -/

/-- Model of the external `deltalake.write_deltalake` call on a logical table
(list of rows), per the library's documented write modes: `append` adds the
new rows, `overwrite` — with no partition filter or predicate argument, which
is how this repository calls it — replaces the entire table contents. The
`partition_by` argument controls file layout only, not logical content. -/
def write_deltalake {ρ : Type} (table : List ρ) (df : List ρ)
    (mode : String) (partition_by : List String) : List ρ :=
  if mode = "overwrite" then df
  else if mode = "append" then table ++ df
  else table

/-- Model of `write_delta_table`: an empty record set is a no-op, otherwise
the write is delegated to `write_deltalake` with the given mode. -/
def write_delta_table {ρ : Type} (table : List ρ) (df : List ρ)
    (partition_by : List String) (mode : String) : List ρ :=
  if df.isEmpty then table else write_deltalake table df mode partition_by

/- ### Sync handler (`sync_raw_data/handler.py`) -/

/-- The registry (DynamoDB contracts table), reduced to the one attribute the
handler reads and writes: `last_updated_block` per `(chainid,
contract_address)` key. -/
def Registry : Type := Nat × String → Nat

/-- Model of `update_last_synced_block`: set `last_updated_block` for one
`(chainid, contract_address)` key. -/
def update_last_synced_block (reg : Registry) (chain_id : Nat)
    (contract_address : String) (block_number : Nat) : Registry :=
  fun k => if k = (chain_id, contract_address) then block_number else reg k

/-- The sync handler's input event. Numeric fields model
`int(event.get(key, 0))` (absent maps to 0); `contract_address` models
`event.get("contract_address", "")` (absent maps to `""`). -/
structure SyncEvent where
  chainid : Nat
  contract_address : String
  chain_name : Option String
  contract_abi : Option String
  last_updated_block : Nat
  contract_creation_block : Nat
  target_block : Nat
deriving DecidableEq, Repr

/-- The sync handler's returned dictionary; keys absent from a given return
branch are `none`. -/
structure SyncResult where
  status : String
  chainid : Nat
  contract_address : String
  error : Option String := none
  message : Option String := none
  chain_name : Option String := none
  contract_abi : Option String := none
  synced_from_block : Option Nat := none
  synced_to_block : Option Nat := none
  logs_count : Option Nat := none
  last_updated_block : Option Nat := none
  target_block : Option Nat := none
deriving DecidableEq, Repr

/-- Which external effects a sync invocation attempted: the Etherscan fetch,
the raw-data Delta write, and the registry watermark update. -/
structure SyncEffects where
  fetched : Bool
  wrote : Bool
  registry_update_attempted : Bool
deriving DecidableEq, Repr

/-- Result, post-state of the registry, and attempted effects of one sync
invocation. -/
structure SyncOutcome where
  result : SyncResult
  registry : Registry
  effects : SyncEffects

/-- The sync planner's `from_block` computation from the handler: full
backfill from the creation block (or 0) when the watermark is 0, else
incremental from watermark + 1. -/
def planned_from_block (last_updated_block contract_creation_block : Nat) : Nat :=
  if last_updated_block = 0 then
    if contract_creation_block > 0 then contract_creation_block else 0
  else last_updated_block + 1

/-- Model of the `sync_raw_data` handler. External calls are oracles:
`fetch_logs` is the `client.get_logs` outcome (its raised exceptions as
`.error`), `raw_write` the `write_delta_table` outcome for the raw append
(attempted only when logs were fetched), `registry_write` the
`update_last_synced_block` outcome — whose failure is, as in the source,
demoted to a warning. -/
def sync_handler {α : Type} (event : SyncEvent) (reg : Registry)
    (fetch_logs : Except String (List α)) (raw_write : Except String Unit)
    (registry_write : Except String Unit) : SyncOutcome :=
  if event.chainid = 0 ∨ event.contract_address = "" ∨ event.target_block = 0 then
    { result :=
        { status := "error",
          error := some "Missing required fields: chainid, contract_address, or target_block",
          chainid := event.chainid, contract_address := event.contract_address },
      registry := reg,
      effects := { fetched := false, wrote := false, registry_update_attempted := false } }
  else
    let from_block := planned_from_block event.last_updated_block event.contract_creation_block
    if from_block > event.target_block then
      { result :=
          { status := "no_new_data", chainid := event.chainid,
            contract_address := event.contract_address,
            message := some "Already synced to target block",
            last_updated_block := some event.last_updated_block,
            target_block := some event.target_block },
        registry := reg,
        effects := { fetched := false, wrote := false, registry_update_attempted := false } }
    else
      match fetch_logs with
      | .error e =>
        { result :=
            { status := "error",
              error := some ("Failed to fetch logs: " ++ e),
              chainid := event.chainid, contract_address := event.contract_address },
          registry := reg,
          effects := { fetched := true, wrote := false, registry_update_attempted := false } }
      | .ok logs =>
        match (if logs.isEmpty then Except.ok () else raw_write) with
        | .error e =>
          { result :=
              { status := "error",
                error := some ("Failed to write to DeltaLake: " ++ e),
                chainid := event.chainid, contract_address := event.contract_address },
            registry := reg,
            effects := { fetched := true, wrote := true, registry_update_attempted := false } }
        | .ok _ =>
          { result :=
              { status := "success", chainid := event.chainid,
                contract_address := event.contract_address,
                chain_name := event.chain_name, contract_abi := event.contract_abi,
                synced_from_block := some from_block,
                synced_to_block := some event.target_block,
                logs_count := some logs.length },
            registry :=
              match registry_write with
              | .ok _ =>
                update_last_synced_block reg event.chainid event.contract_address
                  event.target_block
              | .error _ => reg,
            effects :=
              { fetched := true, wrote := !logs.isEmpty,
                registry_update_attempted := true } }

/- ### Decode handler (`decode_data/handler.py`) -/

/-- The decode handler's input event: the sync stage's output for one
contract. `chainid` models `int(event.get("chainid", 0))`,
`contract_address` and `contract_abi` default to `""` when absent. -/
structure DecodeEvent where
  status : Option String
  chainid : Nat
  contract_address : String
  contract_abi : String
  error : Option String
  synced_from_block : Option Nat
  synced_to_block : Option Nat
deriving Repr

/-- The decode handler's returned dictionary; keys absent from a given branch
are `none`. -/
structure DecodeResult where
  status : String
  chainid : Nat
  contract_address : String
  reason : Option String := none
  error : Option String := none
  message : Option String := none
  decoded_count : Option Nat := none
deriving DecidableEq, Repr

/-- Which external effects a decode invocation attempted: the S3 ABI load,
the raw-table read, the decode itself, and the decoded-table write. -/
structure DecodeEffects where
  abi_loaded : Bool
  raw_read : Bool
  decoded : Bool
  wrote : Bool
deriving DecidableEq, Repr

/-- Result, post-state of the decoded table, and attempted effects of one
decode invocation. -/
structure DecodeOutcome where
  result : DecodeResult
  table : List DecodedRecord
  effects : DecodeEffects

/-- Model of the `decode_data` handler. Oracles: `load_abi` is
`load_abi_from_s3` composed with the event-map construction at the top of
`decode_logs` (`.error` for a raised exception), `read_raw` is
`read_delta_table` filtered to this contract composed with
`reconstruct_log_for_decoding` over its rows, `write_decoded` the outcome of
the decoded-table write. `decoded_table` is the pre-call logical content of
the `decoded_logs` table; on a successful write it is replaced via
`write_delta_table` with `mode = "overwrite"`, exactly as in the source. -/
def decode_handler (event : DecodeEvent) (load_abi : Except String EventMap)
    (read_raw : Except String (List EvmLog)) (write_decoded : Except String Unit)
    (decoded_table : List DecodedRecord) : DecodeOutcome :=
  if event.status = some "no_new_data" then
    { result :=
        { status := "skipped", reason := some "no_new_data",
          chainid := event.chainid, contract_address := event.contract_address },
      table := decoded_table,
      effects := { abi_loaded := false, raw_read := false, decoded := false, wrote := false } }
  else if event.status = some "error" then
    { result :=
        { status := "skipped", reason := some "previous_step_failed",
          chainid := event.chainid, contract_address := event.contract_address,
          error := event.error },
      table := decoded_table,
      effects := { abi_loaded := false, raw_read := false, decoded := false, wrote := false } }
  else if event.chainid = 0 ∨ event.contract_address = "" then
    { result :=
        { status := "error",
          error := some "Missing required fields: chainid or contract_address",
          chainid := event.chainid, contract_address := event.contract_address },
      table := decoded_table,
      effects := { abi_loaded := false, raw_read := false, decoded := false, wrote := false } }
  else if event.contract_abi = "" then
    { result :=
        { status := "error", error := some "No ABI location provided",
          chainid := event.chainid, contract_address := event.contract_address },
      table := decoded_table,
      effects := { abi_loaded := false, raw_read := false, decoded := false, wrote := false } }
  else
    match load_abi with
    | .error e =>
      { result :=
          { status := "error", error := some ("Failed to load ABI: " ++ e),
            chainid := event.chainid, contract_address := event.contract_address },
        table := decoded_table,
        effects := { abi_loaded := true, raw_read := false, decoded := false, wrote := false } }
    | .ok event_map =>
      match read_raw with
      | .error e =>
        { result :=
            { status := "error",
              error := some ("Failed to read raw logs: " ++ e),
              chainid := event.chainid, contract_address := event.contract_address },
          table := decoded_table,
          effects := { abi_loaded := true, raw_read := true, decoded := false, wrote := false } }
      | .ok logs =>
        if logs.isEmpty then
          { result :=
              { status := "no_data",
                message := some "No raw logs found for this contract",
                chainid := event.chainid, contract_address := event.contract_address },
            table := decoded_table,
            effects := { abi_loaded := true, raw_read := true, decoded := false, wrote := false } }
        else
          let decoded := decode_logs logs event_map
          match write_decoded with
          | .error e =>
            { result :=
                { status := "error",
                  error := some ("Failed to write decoded logs: " ++ e),
                  chainid := event.chainid, contract_address := event.contract_address },
              table := decoded_table,
              effects := { abi_loaded := true, raw_read := true, decoded := true, wrote := true } }
          | .ok _ =>
            { result :=
                { status := "success", chainid := event.chainid,
                  contract_address := event.contract_address,
                  decoded_count := some decoded.length },
              table := write_delta_table decoded_table decoded
                ["chainid", "contract_address", "topic0"] "overwrite",
              effects := { abi_loaded := true, raw_read := true, decoded := true, wrote := true } }

/- ### Sync handler lemmas and claims -/

/-- Helper: the shape of a sync invocation that reaches the success branch
(valid fields, non-empty planned range, fetch succeeded, and the raw write
succeeded or was skipped because no logs were fetched). -/
theorem sync_handler_success_eq {α : Type} (event : SyncEvent) (reg : Registry)
    (logs : List α) (raw_write registry_write : Except String Unit)
    (h1 : ¬ (event.chainid = 0 ∨ event.contract_address = "" ∨ event.target_block = 0))
    (h2 : ¬ planned_from_block event.last_updated_block event.contract_creation_block >
      event.target_block)
    (h4 : logs.isEmpty = true ∨ raw_write = Except.ok ()) :
    sync_handler event reg (Except.ok logs) raw_write registry_write =
      { result :=
          { status := "success", chainid := event.chainid,
            contract_address := event.contract_address,
            chain_name := event.chain_name, contract_abi := event.contract_abi,
            synced_from_block :=
              some (planned_from_block event.last_updated_block event.contract_creation_block),
            synced_to_block := some event.target_block,
            logs_count := some logs.length },
        registry :=
          match registry_write with
          | .ok _ =>
            update_last_synced_block reg event.chainid event.contract_address
              event.target_block
          | .error _ => reg,
        effects :=
          { fetched := true, wrote := !logs.isEmpty,
            registry_update_attempted := true } } := by
  rcases h4 with hE | hW
  · simp [sync_handler, h1, h2, hE]
  · simp only [sync_handler, h1, h2, hW]
    cases hL : logs.isEmpty <;> simp [hL]

/-- Claim C4: when the planned from_block exceeds the target_block, the
result status is no_new_data and the registry — in particular this
contract's last_updated_block — is exactly its pre-call value, with no fetch,
write, or registry update attempted. -/
theorem sync_no_new_data_frame {α : Type} (event : SyncEvent) (reg : Registry)
    (fetch_logs : Except String (List α)) (raw_write registry_write : Except String Unit)
    (h1 : ¬ (event.chainid = 0 ∨ event.contract_address = "" ∨ event.target_block = 0))
    (h2 : planned_from_block event.last_updated_block event.contract_creation_block >
      event.target_block) :
    (sync_handler event reg fetch_logs raw_write registry_write).result.status
      = "no_new_data" ∧
    (sync_handler event reg fetch_logs raw_write registry_write).registry = reg ∧
    (sync_handler event reg fetch_logs raw_write registry_write).registry
        (event.chainid, event.contract_address)
      = reg (event.chainid, event.contract_address) ∧
    (sync_handler event reg fetch_logs raw_write registry_write).effects
      = { fetched := false, wrote := false, registry_update_attempted := false } := by
  simp [sync_handler, h1, h2]

/-- Concrete instance of the C4 theorem: watermark 100, target 50, planned
from_block 101 > 50; the registry record keeps its pre-call value 100. -/
def syncEventC4 : SyncEvent :=
  { chainid := 1, contract_address := "0xabc", chain_name := some "ethereum",
    contract_abi := some "s3://abis/a.json", last_updated_block := 100,
    contract_creation_block := 10, target_block := 50 }

/-- A concrete pre-call registry holding watermark 100 for every contract. -/
def regPre : Registry := fun _ => 100

theorem sync_no_new_data_frame_witness :
    (sync_handler (α := Unit) syncEventC4 regPre (Except.ok []) (Except.ok ())
        (Except.ok ())).result.status = "no_new_data" ∧
    (sync_handler (α := Unit) syncEventC4 regPre (Except.ok []) (Except.ok ())
        (Except.ok ())).registry = regPre ∧
    (sync_handler (α := Unit) syncEventC4 regPre (Except.ok []) (Except.ok ())
        (Except.ok ())).registry (1, "0xabc") = regPre (1, "0xabc") ∧
    (sync_handler (α := Unit) syncEventC4 regPre (Except.ok []) (Except.ok ())
        (Except.ok ())).effects
      = { fetched := false, wrote := false, registry_update_attempted := false } := by
  have h := sync_no_new_data_frame (α := Unit) syncEventC4 regPre (Except.ok [])
    (Except.ok ()) (Except.ok ()) (by decide) (by decide)
  exact h

/-- Claim C6: on the success path, the planned start block is determined by
the watermark: full backfill from the creation block (or 0) when the
watermark is 0, incremental from watermark + 1 when it is positive. -/
theorem sync_planned_from_block_spec {α : Type} (event : SyncEvent) (reg : Registry)
    (logs : List α) (raw_write registry_write : Except String Unit)
    (h1 : ¬ (event.chainid = 0 ∨ event.contract_address = "" ∨ event.target_block = 0))
    (h2 : ¬ planned_from_block event.last_updated_block event.contract_creation_block >
      event.target_block)
    (h4 : logs.isEmpty = true ∨ raw_write = Except.ok ()) :
    (event.last_updated_block = 0 →
      (sync_handler event reg (Except.ok logs) raw_write
          registry_write).result.synced_from_block
        = some (if event.contract_creation_block > 0 then event.contract_creation_block
            else 0)) ∧
    (0 < event.last_updated_block →
      (sync_handler event reg (Except.ok logs) raw_write
          registry_write).result.synced_from_block
        = some (event.last_updated_block + 1)) := by
  rw [sync_handler_success_eq event reg logs raw_write registry_write h1 h2 h4]
  constructor
  · intro h0
    simp [planned_from_block, h0]
  · intro hpos
    simp [planned_from_block, Nat.pos_iff_ne_zero.mp hpos]

/-- Concrete C6 instance, full-backfill mode: watermark 0, creation block
500. -/
def syncEventC6a : SyncEvent :=
  { chainid := 1, contract_address := "0xabc", chain_name := some "ethereum",
    contract_abi := some "s3://abis/a.json", last_updated_block := 0,
    contract_creation_block := 500, target_block := 1000 }

/-- Concrete C6 instance, incremental mode: watermark 7. -/
def syncEventC6b : SyncEvent :=
  { chainid := 1, contract_address := "0xabc", chain_name := some "ethereum",
    contract_abi := some "s3://abis/a.json", last_updated_block := 7,
    contract_creation_block := 500, target_block := 1000 }

theorem sync_planned_from_block_spec_witness :
    (sync_handler (α := Unit) syncEventC6a regPre (Except.ok []) (Except.ok ())
        (Except.ok ())).result.synced_from_block = some 500 ∧
    (sync_handler (α := Unit) syncEventC6b regPre (Except.ok []) (Except.ok ())
        (Except.ok ())).result.synced_from_block = some 8 := by
  have ha := sync_planned_from_block_spec (α := Unit) syncEventC6a regPre []
    (Except.ok ()) (Except.ok ()) (by decide) (by decide) (Or.inl rfl)
  have hb := sync_planned_from_block_spec (α := Unit) syncEventC6b regPre []
    (Except.ok ()) (Except.ok ()) (by decide) (by decide) (Or.inl rfl)
  refine ⟨?_, ?_⟩
  · have := ha.1 rfl
    simpa using this
  · have := hb.2 (by decide)
    simpa using this

/-- Claim C7: when the fetch and the raw-data write both succeed and the
registry update does not fail, the watermark is set to exactly the target
block — for any fetched log list, including the empty one — and the returned
synced_to_block is that same value. -/
theorem sync_success_advances_watermark {α : Type} (event : SyncEvent) (reg : Registry)
    (logs : List α) (raw_write : Except String Unit)
    (h1 : ¬ (event.chainid = 0 ∨ event.contract_address = "" ∨ event.target_block = 0))
    (h2 : ¬ planned_from_block event.last_updated_block event.contract_creation_block >
      event.target_block)
    (h4 : logs.isEmpty = true ∨ raw_write = Except.ok ()) :
    (sync_handler event reg (Except.ok logs) raw_write
        (Except.ok ())).result.status = "success" ∧
    (sync_handler event reg (Except.ok logs) raw_write (Except.ok ())).registry
        (event.chainid, event.contract_address) = event.target_block ∧
    (sync_handler event reg (Except.ok logs) raw_write
        (Except.ok ())).result.synced_to_block = some event.target_block := by
  rw [sync_handler_success_eq event reg logs raw_write (Except.ok ()) h1 h2 h4]
  refine ⟨rfl, ?_, rfl⟩
  simp [update_last_synced_block]

/-- Concrete C7 instance: zero logs fetched, watermark still advanced from
its pre-call value 100 to the target block 1000. -/
def syncEventC7 : SyncEvent :=
  { chainid := 1, contract_address := "0xabc", chain_name := some "ethereum",
    contract_abi := some "s3://abis/a.json", last_updated_block := 100,
    contract_creation_block := 10, target_block := 1000 }

theorem sync_success_advances_watermark_witness :
    (sync_handler (α := Unit) syncEventC7 regPre (Except.ok []) (Except.ok ())
        (Except.ok ())).result.status = "success" ∧
    (sync_handler (α := Unit) syncEventC7 regPre (Except.ok []) (Except.ok ())
        (Except.ok ())).registry (1, "0xabc") = 1000 ∧
    (sync_handler (α := Unit) syncEventC7 regPre (Except.ok []) (Except.ok ())
        (Except.ok ())).result.synced_to_block = some 1000 := by
  have h := sync_success_advances_watermark (α := Unit) syncEventC7 regPre []
    (Except.ok ()) (by decide) (by decide) (Or.inl rfl)
  exact h

/-- Claim C8: when the raw-data write succeeds but the registry watermark
update raises, the invocation still returns status success with the fetched
log count, and the registry keeps its pre-call state. -/
theorem sync_registry_failure_soft {α : Type} (event : SyncEvent) (reg : Registry)
    (logs : List α) (raw_write : Except String Unit) (e : String)
    (h1 : ¬ (event.chainid = 0 ∨ event.contract_address = "" ∨ event.target_block = 0))
    (h2 : ¬ planned_from_block event.last_updated_block event.contract_creation_block >
      event.target_block)
    (h4 : logs.isEmpty = true ∨ raw_write = Except.ok ()) :
    (sync_handler event reg (Except.ok logs) raw_write
        (Except.error e)).result.status = "success" ∧
    (sync_handler event reg (Except.ok logs) raw_write
        (Except.error e)).result.logs_count = some logs.length ∧
    (sync_handler event reg (Except.ok logs) raw_write (Except.error e)).registry
      = reg := by
  rw [sync_handler_success_eq event reg logs raw_write (Except.error e) h1 h2 h4]
  exact ⟨rfl, rfl, rfl⟩

theorem sync_registry_failure_soft_witness :
    (sync_handler (α := Unit) syncEventC7 regPre (Except.ok [(), ()]) (Except.ok ())
        (Except.error "throttled")).result.status = "success" ∧
    (sync_handler (α := Unit) syncEventC7 regPre (Except.ok [(), ()]) (Except.ok ())
        (Except.error "throttled")).result.logs_count = some 2 ∧
    (sync_handler (α := Unit) syncEventC7 regPre (Except.ok [(), ()]) (Except.ok ())
        (Except.error "throttled")).registry = regPre := by
  have h := sync_registry_failure_soft (α := Unit) syncEventC7 regPre [(), ()]
    (Except.ok ()) "throttled" (by decide) (by decide) (Or.inr rfl)
  exact h

/-- Claim C10: an input with chainid, contract_address, or target_block
absent, zero, or empty is rejected with a missing-required-fields error;
nothing is fetched or written and the registry is untouched. -/
theorem sync_missing_fields_error {α : Type} (event : SyncEvent) (reg : Registry)
    (fetch_logs : Except String (List α)) (raw_write registry_write : Except String Unit)
    (h : event.chainid = 0 ∨ event.contract_address = "" ∨ event.target_block = 0) :
    (sync_handler event reg fetch_logs raw_write registry_write).result.status
      = "error" ∧
    (sync_handler event reg fetch_logs raw_write registry_write).result.error
      = some "Missing required fields: chainid, contract_address, or target_block" ∧
    (sync_handler event reg fetch_logs raw_write registry_write).effects
      = { fetched := false, wrote := false, registry_update_attempted := false } ∧
    (sync_handler event reg fetch_logs raw_write registry_write).registry = reg := by
  simp [sync_handler, h]

/-- Concrete C10 instance: target_block = 0 with the other fields present is
rejected as an error, not planned as a range ending at block 0. -/
def syncEventC10 : SyncEvent :=
  { chainid := 1, contract_address := "0xabc", chain_name := some "ethereum",
    contract_abi := some "s3://abis/a.json", last_updated_block := 0,
    contract_creation_block := 10, target_block := 0 }

theorem sync_missing_fields_error_witness :
    (sync_handler (α := Unit) syncEventC10 regPre (Except.ok []) (Except.ok ())
        (Except.ok ())).result.status = "error" ∧
    (sync_handler (α := Unit) syncEventC10 regPre (Except.ok []) (Except.ok ())
        (Except.ok ())).result.error
      = some "Missing required fields: chainid, contract_address, or target_block" ∧
    (sync_handler (α := Unit) syncEventC10 regPre (Except.ok []) (Except.ok ())
        (Except.ok ())).effects
      = { fetched := false, wrote := false, registry_update_attempted := false } ∧
    (sync_handler (α := Unit) syncEventC10 regPre (Except.ok []) (Except.ok ())
        (Except.ok ())).registry = regPre := by
  have h := sync_missing_fields_error (α := Unit) syncEventC10 regPre (Except.ok [])
    (Except.ok ()) (Except.ok ()) (by decide)
  exact h

/- ### Decoder lemmas and claims -/

/-- Helper: every record produced by the decoder loop body carries one of the
four decode statuses, and a decode_error exactly when the status is error. -/
theorem decode_one_spec (event_map : EventMap) (log : EvmLog) :
    ((decode_one event_map log).decode_status = "success" ∨
     (decode_one event_map log).decode_status = "unknown_event" ∨
     (decode_one event_map log).decode_status = "no_topics" ∨
     (decode_one event_map log).decode_status = "error") ∧
    ((decode_one event_map log).decode_error ≠ none ↔
      (decode_one event_map log).decode_status = "error") := by
  unfold decode_one
  cases htop : log.topics with
  | nil => exact ⟨by simp, by simp⟩
  | cons t ts =>
    cases hlk : event_map.lookup (normalize_sig t) with
    | none => exact ⟨by simp [hlk], by simp [hlk]⟩
    | some event =>
      cases hp : prepare_log_for_web3 log with
      | error e => exact ⟨by simp [hlk, hp], by simp [hlk, hp]⟩
      | ok web3_log =>
        cases hpl : event.process_log web3_log with
        | error e => exact ⟨by simp [hlk, hp, hpl], by simp [hlk, hp, hpl]⟩
        | ok args => exact ⟨by simp [hlk, hp, hpl], by simp [hlk, hp, hpl]⟩

/-- Claim C2: decode_logs is total — given any event lookup, it returns
exactly one output record per input log (it cannot raise: the loop body is a
total function), each output's decode_status is one of success,
unknown_event, no_topics, error, and decode_error is present exactly when
the status is error. -/
theorem decode_logs_total (logs : List EvmLog) (event_map : EventMap) :
    (decode_logs logs event_map).length = logs.length ∧
    ∀ r ∈ decode_logs logs event_map,
      (r.decode_status = "success" ∨ r.decode_status = "unknown_event" ∨
       r.decode_status = "no_topics" ∨ r.decode_status = "error") ∧
      (r.decode_error ≠ none ↔ r.decode_status = "error") := by
  refine ⟨by simp [decode_logs], ?_⟩
  intro r hr
  rcases List.mem_map.mp hr with ⟨log, _, rfl⟩
  exact decode_one_spec event_map log

/-- Concrete inputs for the C2 witness: a topicless log, a log with an
unknown signature, and a log matching the lookup but with garbage data. -/
def logNoTopics : EvmLog :=
  { address := "0xaaa", blockNumber := SNum.str "0x10", transactionHash := "0xt0",
    transactionIndex := SNum.str "0x0", logIndex := SNum.str "0x0",
    data := "0x", topics := [], chainid := 1, contract_address := "0xaaa",
    topic0 := none }

def logGarbageData : EvmLog :=
  { address := "0xaaa", blockNumber := SNum.str "0x10", transactionHash := "0xt1",
    transactionIndex := SNum.str "0x0", logIndex := SNum.str "0x0",
    data := "0xzz", topics := [HexTopic.str "0xaabb"], chainid := 1,
    contract_address := "0xaaa", topic0 := some "0xaabb" }

/-- A one-event lookup whose only key is the lowercase signature hash
"0xaabb" (stand-in for a keccak output) and whose web3 decode always
succeeds with no arguments. -/
def eventMapAabb : EventMap :=
  [("0xaabb", { event_name := "Transfer", process_log := fun _ => Except.ok [] })]

theorem decode_logs_total_witness :
    (decode_logs [logNoTopics, logGarbageData] eventMapAabb).length = 2 ∧
    ((decode_one eventMapAabb logGarbageData).decode_status = "success" ∨
     (decode_one eventMapAabb logGarbageData).decode_status = "unknown_event" ∨
     (decode_one eventMapAabb logGarbageData).decode_status = "no_topics" ∨
     (decode_one eventMapAabb logGarbageData).decode_status = "error") ∧
    ((decode_one eventMapAabb logGarbageData).decode_error ≠ none ↔
      (decode_one eventMapAabb logGarbageData).decode_status = "error") := by
  have h := decode_logs_total [logNoTopics, logGarbageData] eventMapAabb
  have hm : decode_one eventMapAabb logGarbageData
      ∈ decode_logs [logNoTopics, logGarbageData] eventMapAabb := by decide
  exact ⟨by simpa using h.1, (h.2 _ hm).1, (h.2 _ hm).2⟩

/-- The C3 counterexample log: its topics[0] is the uppercase-hex variant of
the lookup key "0xaabb". -/
def logUpperTopic : EvmLog :=
  { address := "0xaaa", blockNumber := SNum.str "0x10", transactionHash := "0xt2",
    transactionIndex := SNum.str "0x0", logIndex := SNum.str "0x0",
    data := "0x", topics := [HexTopic.str "0xAABB"], chainid := 1,
    contract_address := "0xaaa", topic0 := some "0xAABB" }

/-- The same log with its topics[0] written in lowercase (the exact lookup
key): this variant does decode successfully. -/
def logLowerTopic : EvmLog :=
  { address := "0xaaa", blockNumber := SNum.str "0x10", transactionHash := "0xt2",
    transactionIndex := SNum.str "0x0", logIndex := SNum.str "0x0",
    data := "0x", topics := [HexTopic.str "0xaabb"], chainid := 1,
    contract_address := "0xaaa", topic0 := some "0xaabb" }

/-- Claim C3 counterexample: a log whose topics[0] differs from the ABI
event's signature hash only in hex-letter case decodes with status
unknown_event, not success — the source only ensures a 0x prefix and never
lowercases a string topic before the lookup. The lowercase variant of the
same log does decode with status success. -/
theorem topic_case_mismatch_counterexample :
    py_lower "0xAABB" = "0xaabb" ∧
    (decode_one eventMapAabb logUpperTopic).decode_status = "unknown_event" ∧
    (decode_one eventMapAabb logUpperTopic).decode_status ≠ "success" ∧
    (decode_one eventMapAabb logLowerTopic).decode_status = "success" := by
  refine ⟨by decide, by decide, by decide, by decide⟩

/-- Claim C3 (amended): for a log with non-empty topics, a string topics[0]
that already has a 0x prefix is used for the event lookup exactly as written
— no case normalization — so when it is not literally a key of the lookup
(for example because it differs from the lowercase signature hash in
hex-letter case) the log decodes with status unknown_event; only a bytes
topics[0] is rendered as lowercase hex. -/
theorem sig_lookup_case_sensitive (event_map : EventMap) (log : EvmLog)
    (s : String) (rest : List HexTopic)
    (htop : log.topics = HexTopic.str s :: rest)
    (hpre : str_startswith s "0x" = true)
    (hmiss : event_map.lookup s = none) :
    normalize_sig (HexTopic.str s) = s ∧
    (∀ b : List Nat, normalize_sig (HexTopic.bytes b) =
      (if str_startswith (bytesToHex b) "0x" then bytesToHex b
        else "0x" ++ bytesToHex b)) ∧
    (decode_one event_map log).decode_status = "unknown_event" := by
  have hsig : normalize_sig (HexTopic.str s) = s := by simp [normalize_sig, hpre]
  refine ⟨hsig, fun b => rfl, ?_⟩
  unfold decode_one
  rw [htop]
  simp only [hsig]
  rw [hmiss]

theorem sig_lookup_case_sensitive_witness :
    normalize_sig (HexTopic.str "0xAABB") = "0xAABB" ∧
    (decode_one eventMapAabb logUpperTopic).decode_status = "unknown_event" := by
  have h := sig_lookup_case_sensitive eventMapAabb logUpperTopic "0xAABB" []
    rfl (by decide) rfl
  exact ⟨h.1, h.2.2⟩

/- ### Decode handler claims -/

/-- Claim C9: a decode invocation whose input status is no_new_data or error
short-circuits to skipped with no ABI load, storage read, decode, or write
attempted and the decoded table untouched; and an invocation that reaches
the raw-log read and gets back an empty set returns status no_data. -/
theorem decode_skip_and_no_data (event : DecodeEvent)
    (load_abi : Except String EventMap) (read_raw : Except String (List EvmLog))
    (write_decoded : Except String Unit) (decoded_table : List DecodedRecord) :
    ((event.status = some "no_new_data" ∨ event.status = some "error") →
      (decode_handler event load_abi read_raw write_decoded
          decoded_table).result.status = "skipped" ∧
      (decode_handler event load_abi read_raw write_decoded decoded_table).effects
        = { abi_loaded := false, raw_read := false, decoded := false, wrote := false } ∧
      (decode_handler event load_abi read_raw write_decoded decoded_table).table
        = decoded_table) ∧
    (event.status ≠ some "no_new_data" → event.status ≠ some "error" →
      ¬ (event.chainid = 0 ∨ event.contract_address = "") →
      event.contract_abi ≠ "" →
      ∀ event_map, load_abi = Except.ok event_map →
      read_raw = Except.ok [] →
      (decode_handler event load_abi read_raw write_decoded
          decoded_table).result.status = "no_data") := by
  constructor
  · rintro (hs | hs) <;> simp [decode_handler, hs]
  · intro hs1 hs2 hf ha event_map hla hrr
    subst hla
    subst hrr
    simp [decode_handler, hs1, hs2, hf, ha]

/-- Concrete C9 skip instance: upstream reported no_new_data. -/
def decodeEventSkip : DecodeEvent :=
  { status := some "no_new_data", chainid := 1, contract_address := "0xaaa",
    contract_abi := "s3://abis/a.json", error := none,
    synced_from_block := none, synced_to_block := none }

/-- Concrete C9 no-data instance: upstream succeeded but storage holds no
raw rows for the contract. -/
def decodeEventEmpty : DecodeEvent :=
  { status := some "success", chainid := 1, contract_address := "0xaaa",
    contract_abi := "s3://abis/a.json", error := none,
    synced_from_block := some 1, synced_to_block := some 100 }

theorem decode_skip_and_no_data_witness :
    (decode_handler decodeEventSkip (Except.ok eventMapAabb) (Except.ok [])
        (Except.ok ()) []).result.status = "skipped" ∧
    (decode_handler decodeEventSkip (Except.ok eventMapAabb) (Except.ok [])
        (Except.ok ()) []).effects
      = { abi_loaded := false, raw_read := false, decoded := false, wrote := false } ∧
    (decode_handler decodeEventEmpty (Except.ok eventMapAabb) (Except.ok [])
        (Except.ok ()) []).result.status = "no_data" := by
  have h1 := (decode_skip_and_no_data decodeEventSkip (Except.ok eventMapAabb)
    (Except.ok []) (Except.ok ()) []).1 (Or.inl rfl)
  have h2 := (decode_skip_and_no_data decodeEventEmpty (Except.ok eventMapAabb)
    (Except.ok []) (Except.ok ()) []).2 (by decide) (by decide) (by decide)
    (by decide) eventMapAabb rfl rfl
  exact ⟨h1.1, h1.2.1, h2⟩

/- ### Decoded-table overwrite (claim C1) -/

/-- A decoded record for a different contract (0xbbb), stored in the
decoded_logs table before the decode run for contract 0xaaa. -/
def recOtherContract : DecodedRecord :=
  { log :=
      { address := "0xbbb", blockNumber := SNum.str "0x5", transactionHash := "0xt9",
        transactionIndex := SNum.str "0x0", logIndex := SNum.str "0x0",
        data := "0x", topics := [HexTopic.str "0xaabb"], chainid := 1,
        contract_address := "0xbbb", topic0 := some "0xaabb" },
    event_name := none, decoded_args := [], decode_status := "unknown_event",
    decode_error := none }

/-- Claim C1: the decode handler writes the decoded records with
mode="overwrite" and no partition predicate, which per the deltalake
library's semantics replaces the entire decoded_logs table. A record stored
under a different contract's (chainid, contract_address, topic0) partition
is therefore gone after a successful decode run for contract 0xaaa — the
handler's own comment says the overwrite is scoped to this contract's
partition, so this contradicts both the claim and the code's stated intent. -/
theorem decode_overwrite_erases_other_partition :
    (decode_handler decodeEventEmpty (Except.ok eventMapAabb)
        (Except.ok [logGarbageData]) (Except.ok ())
        [recOtherContract]).result.status = "success" ∧
    recOtherContract.log.contract_address ≠ decodeEventEmpty.contract_address ∧
    recOtherContract ∈ [recOtherContract] ∧
    recOtherContract ∉
      (decode_handler decodeEventEmpty (Except.ok eventMapAabb)
        (Except.ok [logGarbageData]) (Except.ok ()) [recOtherContract]).table := by
  refine ⟨by decide, by decide, by decide, by decide⟩

/- ### Pagination lemmas and claim C5 -/

/-- Helper: every window the loop issues is well-formed (start ≤ end) and
spans at most batch_size blocks. -/
theorem get_logs_windows_aux_bounds (to_block batch_size : Nat) :
    ∀ fuel current_from, ∀ w ∈ get_logs_windows_aux to_block batch_size fuel current_from,
      w.1 ≤ w.2 ∧ w.2 + 1 - w.1 ≤ batch_size := by
  intro fuel
  induction fuel with
  | zero => intro cf w hw; simp [get_logs_windows_aux] at hw
  | succ fuel ih =>
    intro cf w hw
    simp only [get_logs_windows_aux] at hw
    by_cases hc : cf ≤ to_block ∧ 0 < batch_size
    · rw [if_pos hc] at hw
      rcases List.mem_cons.mp hw with hw | hw
      · subst hw
        have hmin1 : cf ≤ min (cf + batch_size - 1) to_block :=
          le_min (by omega) hc.1
        have hmin2 : min (cf + batch_size - 1) to_block ≤ cf + batch_size - 1 :=
          min_le_left _ _
        exact ⟨hmin1, by omega⟩
      · exact ih _ w hw
    · rw [if_neg hc] at hw
      simp at hw

/-- Helper: with enough fuel, the issued windows partition the block range
exactly — mapping each window to its block interval and concatenating yields
the interval from current_from to to_block, in ascending order. -/
theorem get_logs_windows_aux_cover (to_block batch_size : Nat) (hb : 0 < batch_size) :
    ∀ fuel current_from, to_block + 1 - current_from ≤ fuel →
      ((get_logs_windows_aux to_block batch_size fuel current_from).map
          (fun w => List.range' w.1 (w.2 + 1 - w.1))).flatten
        = List.range' current_from (to_block + 1 - current_from) := by
  intro fuel
  induction fuel with
  | zero =>
    intro cf hf
    have h0 : to_block + 1 - cf = 0 := by omega
    simp [get_logs_windows_aux, h0]
  | succ fuel ih =>
    intro cf hf
    by_cases hle : cf ≤ to_block
    · have hc : cf ≤ to_block ∧ 0 < batch_size := ⟨hle, hb⟩
      simp only [get_logs_windows_aux, if_pos hc, List.map_cons, List.flatten]
      have h1 : cf ≤ min (cf + batch_size - 1) to_block := le_min (by omega) hle
      have h2 : min (cf + batch_size - 1) to_block ≤ to_block := min_le_right _ _
      rw [ih (min (cf + batch_size - 1) to_block + 1) (by omega)]
      have e1 : to_block + 1 - (min (cf + batch_size - 1) to_block + 1)
          = to_block - min (cf + batch_size - 1) to_block := by omega
      rw [e1]
      have happ := List.range'_append_1 cf
        (min (cf + batch_size - 1) to_block + 1 - cf)
        (to_block - min (cf + batch_size - 1) to_block)
      have e2 : cf + (min (cf + batch_size - 1) to_block + 1 - cf)
          = min (cf + batch_size - 1) to_block + 1 := by omega
      have e3 : to_block - min (cf + batch_size - 1) to_block +
            (min (cf + batch_size - 1) to_block + 1 - cf)
          = to_block + 1 - cf := by omega
      rw [e2, e3] at happ
      exact happ
    · have hcneg : ¬ (cf ≤ to_block ∧ 0 < batch_size) := fun hc => hle hc.1
      have h0 : to_block + 1 - cf = 0 := by omega
      simp [get_logs_windows_aux, hcneg, h0]

/-- Helper: the accumulated result of the fetch loop is exactly the
concatenation of the per-window responses, window by window in order. -/
theorem get_logs_aux_eq_join {α : Type} (resp : Nat → Nat → LogsResponse α)
    (to_block batch_size : Nat) :
    ∀ fuel current_from,
      get_logs_aux resp to_block batch_size fuel current_from =
        ((get_logs_windows_aux to_block batch_size fuel current_from).map
          (fun w => window_logs (resp w.1 w.2))).flatten := by
  intro fuel
  induction fuel with
  | zero => intro cf; simp [get_logs_aux, get_logs_windows_aux]
  | succ fuel ih =>
    intro cf
    by_cases hc : cf ≤ to_block ∧ 0 < batch_size
    · simp only [get_logs_aux, get_logs_windows_aux, if_pos hc, List.map_cons,
        List.flatten]
      rw [ih]
    · simp [get_logs_aux, get_logs_windows_aux, hc]

/-- Claim C5: for from_block ≤ to_block and batch_size > 0, get_logs
partitions the range into consecutive ascending windows of at most
batch_size blocks (their intervals concatenate to exactly the full range),
issues one request per window and concatenates the per-window results in
order; and the range 100..25000 with batch_size 10000 is fetched as exactly
the 3 windows (100,10099), (10100,20099), (20100,25000). -/
theorem get_logs_pagination {α : Type} (resp : Nat → Nat → LogsResponse α)
    (from_block to_block batch_size : Nat)
    (h1 : from_block ≤ to_block) (hb : 0 < batch_size) :
    (∀ w ∈ get_logs_windows from_block to_block batch_size,
      w.1 ≤ w.2 ∧ w.2 + 1 - w.1 ≤ batch_size) ∧
    ((get_logs_windows from_block to_block batch_size).map
        (fun w => List.range' w.1 (w.2 + 1 - w.1))).flatten
      = List.range' from_block (to_block + 1 - from_block) ∧
    get_logs resp from_block to_block batch_size
      = ((get_logs_windows from_block to_block batch_size).map
          (fun w => window_logs (resp w.1 w.2))).flatten ∧
    get_logs_windows 100 25000 10000 = [(100, 10099), (10100, 20099), (20100, 25000)] := by
  refine ⟨?_, ?_, ?_, by decide⟩
  · exact fun w hw => get_logs_windows_aux_bounds to_block batch_size _ from_block w hw
  · exact get_logs_windows_aux_cover to_block batch_size hb _ from_block (le_refl _)
  · exact get_logs_aux_eq_join resp to_block batch_size _ from_block

/-- A concrete response oracle for the C5 witness: every window reports
status 1 with its own bounds as the log list. -/
def respBounds : Nat → Nat → LogsResponse Nat :=
  fun a b => { status := "1", result := some [a, b] }

theorem get_logs_pagination_witness :
    100 ≤ 25000 ∧ 0 < 10000 ∧
    get_logs_windows 100 25000 10000 = [(100, 10099), (10100, 20099), (20100, 25000)] ∧
    get_logs respBounds 100 25000 10000 = [100, 10099, 10100, 20099, 20100, 25000] := by
  have h := get_logs_pagination respBounds 100 25000 10000 (by decide) (by decide)
  refine ⟨by decide, by decide, h.2.2.2, ?_⟩
  rw [h.2.2.1, h.2.2.2]
  decide

end EvmPipeline
